import Mathlib

/-!
Shallow embedding of the ChainDepth Solana program (programs/chaindepth/src),
covering the world generator, the room-topology state machine, the cooperative
job lifecycle, boss looting and the delegated session-authorization policy.

Machine integers are modelled as `Nat` (unsigned) or `Int` (signed `i8`),
with explicit `% 2^w` wherever the Rust source uses wrapping arithmetic and
explicit overflow branches wherever the source uses `checked_*` operations.
Account state is modelled as Lean structures; each instruction handler is a
pure function returning `Except ChainDepthError`, matching the all-or-nothing
transaction semantics of the runtime (an error aborts with no state change).

Solana plumbing with no bearing on the modelled state (PDA address
derivation, rent reimbursement lamport moves, CPI token-transfer mechanics,
presence/profile bookkeeping) is not modelled; token balances that the
handlers read or move (prize pool, escrow) appear as explicit `Nat` inputs
and outputs.
-/

namespace ChainDepth

/-- Wrapping 64-bit addition, as `u64::wrapping_add`. -/
def wadd64 (a b : Nat) : Nat := (a + b) % 2 ^ 64

/-- Wrapping 64-bit multiplication, as `u64::wrapping_mul`. -/
def wmul64 (a b : Nat) : Nat := (a * b) % 2 ^ 64

/-- Saturating 64-bit multiplication, as `u64::saturating_mul`. -/
def satmul64 (a b : Nat) : Nat := min (a * b) (2 ^ 64 - 1)

/-- Reinterpretation of a (sign-extended) `i8`/`i64` value as `u64`:
`x as u64` in Rust, i.e. the value modulo `2^64`. -/
def toU64 (x : Int) : Nat := (x % (2 : Int) ^ 64).toNat

/-- Truncation of a signed value to `u32` (`x as u32` after sign extension). -/
def toU32 (x : Int) : Nat := (x % (2 : Int) ^ 32).toNat

/-- Wrapping of an integer into the `i8` range, as release-mode `i8` arithmetic. -/
def i8wrap (z : Int) : Int := (z + 128) % 256 - 128

/-- Absolute value on `i8` (`i8::abs`, which wraps at `-128` in release mode). -/
def i8abs (z : Int) : Int := i8wrap |z|

/-- Wallet public keys are modelled as natural numbers; `Pubkey::default()` is `0`. -/
abbrev Pubkey := Nat

/-- Error taxonomy from errors.rs (the constructors needed by the modelled
handlers). `MaxLootersReached` is referenced by loot_boss.rs; its declaration
is not in the provided errors.rs and is included here so loot_boss.rs can be
modelled as written. -/
inductive ChainDepthError where
  | NotAdjacent
  | WallNotOpen
  | OutOfBounds
  | InvalidDirection
  | NotRubble
  | AlreadyJoined
  | JobFull
  | NotHelper
  | JobNotReady
  | NoActiveJob
  | JobAlreadyCompleted
  | TooManyActiveJobs
  | NoChest
  | AlreadyLooted
  | TreasuryInsufficientFunds
  | NotInRoom
  | NoBoss
  | BossNotDefeated
  | InvalidSessionExpiry
  | InvalidSessionAllowlist
  | SessionExpired
  | SessionInactive
  | SessionInstructionNotAllowed
  | SessionSpendCapExceeded
  | Unauthorized
  | Overflow
  | MaxLootersReached
  deriving DecidableEq, Repr

/-- Decidable equality of run results, so witnesses can be checked by
evaluation. -/
instance {ε α : Type} [DecidableEq ε] [DecidableEq α] :
    DecidableEq (Except ε α) := fun x y =>
  match x, y with
  | .ok a, .ok b =>
    if h : a = b then .isTrue (by rw [h]) else .isFalse (by simp [h])
  | .error a, .error b =>
    if h : a = b then .isTrue (by rw [h]) else .isFalse (by simp [h])
  | .ok _, .error _ => .isFalse (by simp)
  | .error _, .ok _ => .isFalse (by simp)

/-- Wall state constant from state/room.rs: solid wall (impassable). -/
def WALL_SOLID : Nat := 0

/-- Wall state constant from state/room.rs: rubble (can clear). -/
def WALL_RUBBLE : Nat := 1

/-- Wall state constant from state/room.rs: open (passable). -/
def WALL_OPEN : Nat := 2

/-- Center state constant from state/room.rs. -/
def CENTER_EMPTY : Nat := 0

/-- Center state constant from state/room.rs. -/
def CENTER_CHEST : Nat := 1

/-- Center state constant from state/room.rs. -/
def CENTER_BOSS : Nat := 2

/-- Constant from state/room.rs. -/
def MAX_BOSS_HP : Nat := 100000

/-- Modelled from the spec: capacity of a room's looted-set ("the looted-set
below its capacity", §4.4). loot_boss.rs compares `room.looted_by.len()`
against `MAX_LOOTERS`, but the declaration of `MAX_LOOTERS` is not among the
provided source files; only the existence of a finite capacity matters here. -/
def MAX_LOOTERS : Nat := 10

/-- Room account state from state/room.rs. The four-element arrays are
modelled as lists of length 4 indexed by direction (N=0, S=1, E=2, W=3).
The field `looted_by` is the room's looted-set as used by loot_boss.rs
(`room.looted_by`, `room.has_looted`); the provided state/room.rs revision
instead carries only `looted_count`, so `looted_by` is modelled from the
spec's looted-set wording alongside it. -/
structure RoomAccount where
  x : Int
  y : Int
  season_seed : Nat
  walls : List Nat
  helper_counts : List Nat
  progress : List Nat
  start_slot : List Nat
  base_slots : List Nat
  total_staked : List Nat
  job_completed : List Bool
  bonus_per_helper : List Nat
  has_chest : Bool
  center_type : Nat
  center_id : Nat
  boss_max_hp : Nat
  boss_current_hp : Nat
  boss_last_update_slot : Nat
  boss_total_dps : Nat
  boss_fighter_count : Nat
  boss_defeated : Bool
  looted_count : Nat
  looted_by : List Pubkey
  created_by : Pubkey
  created_slot : Nat
  deriving DecidableEq, Repr

namespace RoomAccount

/-- Stake amount per player joining a job (state/room.rs). -/
def STAKE_AMOUNT : Nat := 10000000

/-- Minimum tip for boosting (state/room.rs). -/
def MIN_BOOST_TIP : Nat := 1000000

/-- Base slots for depth 0 (state/room.rs). -/
def BASE_SLOTS_DEPTH_0 : Nat := 300

/-- Boost progress per tip in slots (state/room.rs). -/
def BOOST_PROGRESS : Nat := 30

/-- Refund percentage when abandoning (state/room.rs). -/
def ABANDON_REFUND_PERCENT : Nat := 80

/-- Boss base HP (state/room.rs). -/
def BOSS_BASE_HP : Nat := 300

/-- Opposite cardinal direction (state/room.rs `opposite_direction`). -/
def opposite_direction (direction : Nat) : Nat :=
  match direction with
  | 0 => 1
  | 1 => 0
  | 2 => 3
  | 3 => 2
  | _ => direction

/-- Adjacent room coordinates for a direction (state/room.rs
`adjacent_coords`; `i8` arithmetic wraps in release mode). -/
def adjacent_coords (x y : Int) (direction : Nat) : Int × Int :=
  match direction with
  | 0 => (x, i8wrap (y + 1))
  | 1 => (x, i8wrap (y - 1))
  | 2 => (i8wrap (x + 1), y)
  | 3 => (i8wrap (x - 1), y)
  | _ => (x, y)

/-- Base slots from global depth (state/room.rs `calculate_base_slots`).
The source comment reads "Base increases by 10% every 10 depth levels";
the implementation multiplies the base by `depth / 10 + 1`. -/
def calculate_base_slots (depth : Nat) : Nat :=
  BASE_SLOTS_DEPTH_0 * (depth / 10 + 1)

/-- Direction validity check (state/room.rs `is_valid_direction`). -/
def is_valid_direction (direction : Nat) : Bool :=
  direction ≤ 3

/-- Wall-is-rubble check (state/room.rs `is_rubble`). -/
def is_rubble (r : RoomAccount) (direction : Nat) : Bool :=
  r.walls.getD direction 0 == WALL_RUBBLE

/-- Wall-is-open check (state/room.rs `is_open`). -/
def is_open (r : RoomAccount) (direction : Nat) : Bool :=
  r.walls.getD direction 0 == WALL_OPEN

/-- Boss HP scaling (state/room.rs `boss_hp_for_depth`). -/
def boss_hp_for_depth (depth : Nat) (boss_id : Nat) : Nat :=
  let depth_multiplier := 1 + depth / 4
  let id_multiplier := 1 + boss_id % 5
  let hp := satmul64 (satmul64 BOSS_BASE_HP depth_multiplier) id_multiplier
  min hp MAX_BOSS_HP

/-- Looted-set membership as used by loot_boss.rs (`room.has_looted`); the
method body is not among the provided sources and is modelled from the spec:
"caller not already in the room's looted-set" (§4.4). -/
def has_looted (r : RoomAccount) (player : Pubkey) : Bool :=
  r.looted_by.contains player

/-- Start-room wall generation (state/room.rs `generate_start_walls`). -/
def generate_start_walls (season_seed : Nat) : List Nat :=
  (List.range 4).map (fun direction =>
    let direction_hash := wadd64 (wmul64 season_seed 31) direction
    if direction_hash % 2 = 0 then WALL_OPEN else WALL_RUBBLE)

end RoomAccount

/-- Modelled from the spec: the global account (state/global.rs is not among
the provided sources; its fields and constants are reconstructed from their
uses in init_global.rs, move_player.rs and complete_job.rs). -/
structure GlobalAccount where
  season_seed : Nat
  depth : Nat
  jobs_completed : Nat
  admin : Pubkey
  deriving DecidableEq, Repr

namespace GlobalAccount

/-- Modelled from the spec: start coordinates; init_global.rs documents the
starting room at (5, 5) and complete_job.rs hard-codes 5 in its depth
computation. -/
def START_X : Int := 5

/-- Modelled from the spec: see `START_X`. -/
def START_Y : Int := 5

/-- Modelled from the spec: the coordinate range is given as [0,10] (§3). -/
def MIN_COORD : Int := 0

/-- Modelled from the spec: see `MIN_COORD`. -/
def MAX_COORD : Int := 10

end GlobalAccount

/-- An active job membership of a player: room coordinates plus direction. -/
structure ActiveJob where
  x : Int
  y : Int
  direction : Nat
  deriving DecidableEq, Repr

/-- Player account state (state/player.rs is not among the provided sources;
fields are reconstructed from their uses in move_player.rs,
join_job_with_session.rs, complete_job.rs and loot_boss.rs, and from the
spec's Player entity, §3). -/
structure PlayerAccount where
  owner : Pubkey
  current_room_x : Int
  current_room_y : Int
  active_jobs : List ActiveJob
  jobs_completed : Nat
  chests_looted : Nat
  equipped_item_id : Nat
  season_seed : Nat
  deriving DecidableEq, Repr

namespace PlayerAccount

/-- Modelled from the spec: bound on concurrent active-job memberships
("a player may hold at most N concurrent active-job memberships,
bounded-size, e.g. ≤3", §3; error kind `TooManyActiveJobs`). -/
def MAX_ACTIVE_JOBS : Nat := 3

/-- Modelled from the spec: membership test of the active-job set, as used by
the handlers (`player_account.has_active_job(room.x, room.y, direction)`). -/
def has_active_job (pa : PlayerAccount) (x y : Int) (direction : Nat) : Bool :=
  pa.active_jobs.contains ⟨x, y, direction⟩

/-- Modelled from the spec: position check used by the loot handlers
(`player_account.is_at_room(room.x, room.y)`). -/
def is_at_room (pa : PlayerAccount) (x y : Int) : Bool :=
  pa.current_room_x == x && pa.current_room_y == y

/-- Modelled from the spec: adds a membership to the bounded active-job set,
failing with `TooManyActiveJobs` when the bound is reached. -/
def add_job (pa : PlayerAccount) (x y : Int) (direction : Nat) :
    Except ChainDepthError PlayerAccount :=
  if pa.active_jobs.length ≥ MAX_ACTIVE_JOBS then
    .error .TooManyActiveJobs
  else
    .ok { pa with active_jobs := pa.active_jobs ++ [⟨x, y, direction⟩] }

end PlayerAccount

namespace session_instruction_bits

/-- Modelled from the spec: per-instruction allowlist bits (state/session.rs
is not among the provided sources; the exact bit values are immaterial, each
instruction kind having one distinct bit in the mask). -/
def MOVE_PLAYER : Nat := 1

def JOIN_JOB : Nat := 2

def COMPLETE_JOB : Nat := 4

def LOOT_BOSS : Nat := 8

end session_instruction_bits

/-- Modelled from the spec: the delegated session capability record, §3 and
§4.5 — validity window [start, end), active flag, instruction allowlist
bitmask and remaining cumulative spend cap (state/session.rs is not among
the provided sources). -/
structure SessionAuthority where
  start_time : Nat
  end_time : Nat
  is_active : Bool
  allowed_instructions : Nat
  remaining_cap : Nat
  deriving DecidableEq, Repr

/-- Modelled from the spec: `authorize_player_action` (session_auth.rs is not
among the provided sources). Rule order per §4.5: primary-key sovereignty
first; otherwise the session must exist, be within [start, end) (else
`SessionExpired`), be active (else `SessionInactive`), have the requested
instruction bit in its allowlist (else `SessionInstructionNotAllowed`) and
have `remaining_cap ≥ requested_spend` (else `SessionSpendCapExceeded`);
on success the cap is debited by the requested spend. The error for a
missing session record is not named by the spec; `Unauthorized` stands in
for it and no theorem depends on that branch. -/
def authorize_player_action (authority player : Pubkey)
    (session : Option SessionAuthority) (now : Nat)
    (requested_instruction requested_spend : Nat) :
    Except ChainDepthError (Option SessionAuthority) :=
  if authority = player then
    .ok session
  else
    match session with
    | none => .error .Unauthorized
    | some s =>
      if ¬ (s.start_time ≤ now ∧ now < s.end_time) then
        .error .SessionExpired
      else if ¬ s.is_active then
        .error .SessionInactive
      else if s.allowed_instructions &&& requested_instruction = 0 then
        .error .SessionInstructionNotAllowed
      else if s.remaining_cap < requested_spend then
        .error .SessionSpendCapExceeded
      else
        .ok (some { s with remaining_cap := s.remaining_cap - requested_spend })

namespace move_player

/-- Polynomial room hash (move_player.rs `generate_room_hash`). -/
def generate_room_hash (seed : Nat) (x y : Int) : Nat :=
  let hash := seed
  let hash := wadd64 (wmul64 hash 31) (toU64 x)
  let hash := wadd64 (wmul64 hash 31) (toU64 y)
  hash

/-- Wall generation for a fresh room (move_player.rs `generate_walls`). -/
def generate_walls (hash : Nat) (entrance_direction : Nat) : List Nat :=
  (List.range 4).map (fun direction =>
    if direction = entrance_direction then
      WALL_OPEN
    else
      let wall_hash := (hash >>> (direction * 8)) % 10
      if wall_hash < 6 then WALL_RUBBLE
      else if wall_hash < 9 then 0
      else WALL_OPEN)

/-- Chebyshev depth from the start room (move_player.rs `calculate_depth`). -/
def calculate_depth (x y : Int) : Nat :=
  let dx := toU32 (i8abs (i8wrap (x - GlobalAccount.START_X)))
  let dy := toU32 (i8abs (i8wrap (y - GlobalAccount.START_Y)))
  max dx dy

/-- Forced depth-one chest coordinates (move_player.rs
`is_forced_depth_one_chest`). -/
def is_forced_depth_one_chest (season_seed : Nat) (room_x room_y : Int) : Bool :=
  let forced_direction := season_seed % 4
  let expected : Int × Int :=
    match forced_direction with
    | 0 => (GlobalAccount.START_X, GlobalAccount.START_Y + 1)
    | 1 => (GlobalAccount.START_X, GlobalAccount.START_Y - 1)
    | 2 => (GlobalAccount.START_X + 1, GlobalAccount.START_Y)
    | _ => (GlobalAccount.START_X - 1, GlobalAccount.START_Y)
  room_x == expected.1 && room_y == expected.2

/-- Room-center generation (move_player.rs `generate_room_center`). -/
def generate_room_center (season_seed : Nat) (room_x room_y : Int) (depth : Nat) :
    Nat × Nat :=
  let room_hash := generate_room_hash season_seed room_x room_y
  if depth = 1 then
    if is_forced_depth_one_chest season_seed room_x room_y ∨ room_hash % 100 < 50 then
      (CENTER_CHEST, 1)
    else
      (CENTER_EMPTY, 0)
  else if depth ≥ 2 ∧ room_hash % 100 < 50 then
    (CENTER_BOSS, room_hash % 4 + 1)
  else
    (CENTER_EMPTY, 0)

end move_player

namespace complete_job

/-- Adjacent x coordinate (complete_job.rs `adjacent_x`; `i8` arithmetic
wraps in release mode). -/
def adjacent_x (x : Int) (direction : Nat) : Int :=
  match direction with
  | 2 => i8wrap (x + 1)
  | 3 => i8wrap (x - 1)
  | _ => x

/-- Adjacent y coordinate (complete_job.rs `adjacent_y`). -/
def adjacent_y (y : Int) (direction : Nat) : Int :=
  match direction with
  | 0 => i8wrap (y + 1)
  | 1 => i8wrap (y - 1)
  | _ => y

/-- Polynomial room hash (complete_job.rs `generate_room_hash`). -/
def generate_room_hash (seed : Nat) (x y : Int) : Nat :=
  let hash := seed
  let hash := wadd64 (wmul64 hash 31) (toU64 x)
  let hash := wadd64 (wmul64 hash 31) (toU64 y)
  hash

/-- Wall generation for a fresh room (complete_job.rs `generate_walls`). -/
def generate_walls (hash : Nat) (entrance_dir : Nat) : List Nat :=
  (List.range 4).map (fun i =>
    if i = entrance_dir then
      WALL_OPEN
    else
      let wall_hash := (hash >>> (i * 8)) % 10
      if wall_hash < 6 then WALL_RUBBLE
      else if wall_hash < 9 then 0
      else WALL_OPEN)

/-- Chebyshev depth from (5,5) (complete_job.rs `calculate_depth`). -/
def calculate_depth (x y : Int) : Nat :=
  let dx := toU32 (i8abs (i8wrap (x - 5)))
  let dy := toU32 (i8abs (i8wrap (y - 5)))
  max dx dy

/-- Forced depth-one chest coordinates (complete_job.rs
`is_forced_depth_one_chest`). -/
def is_forced_depth_one_chest (season_seed : Nat) (room_x room_y : Int) : Bool :=
  let forced_direction := season_seed % 4
  let expected : Int × Int :=
    match forced_direction with
    | 0 => (5, 6)
    | 1 => (5, 4)
    | 2 => (6, 5)
    | _ => (4, 5)
  room_x == expected.1 && room_y == expected.2

/-- Room-center generation (complete_job.rs `generate_room_center`). -/
def generate_room_center (season_seed : Nat) (room_x room_y : Int) (depth : Nat) :
    Nat × Nat :=
  let room_hash := generate_room_hash season_seed room_x room_y
  if depth = 1 then
    if is_forced_depth_one_chest season_seed room_x room_y ∨ room_hash % 100 < 50 then
      (CENTER_CHEST, 1)
    else
      (CENTER_EMPTY, 0)
  else if depth ≥ 2 ∧ room_hash % 100 < 50 then
    (CENTER_BOSS, room_hash % 4 + 1)
  else
    (CENTER_EMPTY, 0)

/-- Season-decay bonus per helper (complete_job.rs `calculate_bonus`). -/
def calculate_bonus (jobs_completed helper_count : Nat) : Nat :=
  let base_bonus := RoomAccount.MIN_BOOST_TIP
  base_bonus / (1 + jobs_completed / 100) / helper_count

end complete_job

namespace move_player

/-- Direction of movement derived from the coordinate delta, as computed in
the handler of move_player.rs (0 = North, 1 = South, 2 = East, 3 = West). -/
def direction_of (from_x from_y new_x new_y : Int) : Nat :=
  if new_y > from_y then 0
  else if new_y < from_y then 1
  else if new_x > from_x then 2
  else 3

/-- Player account created on first move, as initialized by the handler of
move_player.rs when `player_account.owner == Pubkey::default()`. -/
def fresh_player_account (player : Pubkey) (season_seed : Nat) : PlayerAccount :=
  { owner := player
    current_room_x := GlobalAccount.START_X
    current_room_y := GlobalAccount.START_Y
    active_jobs := []
    jobs_completed := 0
    chests_looted := 0
    equipped_item_id := 0
    season_seed := season_seed }

/-- Target-room initialization block of the handler of move_player.rs
(executed when the target room does not exist yet, i.e. its stored season
seed is 0). -/
def init_target_room (global : GlobalAccount) (player : Pubkey)
    (new_x new_y : Int) (opposite_direction : Nat) (now : Nat) : RoomAccount :=
  let room_depth := calculate_depth new_x new_y
  let room_hash := generate_room_hash global.season_seed new_x new_y
  let center := generate_room_center global.season_seed new_x new_y room_depth
  let boss_max_hp :=
    if center.1 = CENTER_BOSS then
      RoomAccount.boss_hp_for_depth room_depth center.2
    else 0
  { x := new_x
    y := new_y
    season_seed := global.season_seed
    walls := generate_walls room_hash opposite_direction
    helper_counts := List.replicate 4 0
    progress := List.replicate 4 0
    start_slot := List.replicate 4 0
    base_slots := List.replicate 4 (RoomAccount.calculate_base_slots room_depth)
    total_staked := List.replicate 4 0
    job_completed := List.replicate 4 false
    bonus_per_helper := List.replicate 4 0
    has_chest := center.1 = CENTER_CHEST
    center_type := center.1
    center_id := center.2
    boss_max_hp := boss_max_hp
    boss_current_hp := boss_max_hp
    boss_last_update_slot := now
    boss_total_dps := 0
    boss_fighter_count := 0
    boss_defeated := false
    looted_count := 0
    looted_by := []
    created_by := player
    created_slot := now }

/-- Result state of a successful `move_player` transaction. The current room
is read-only in the handler (it is not a `mut` account) and is therefore not
part of the result. -/
structure MoveResult where
  session : Option SessionAuthority
  global : GlobalAccount
  player_account : PlayerAccount
  target_room : RoomAccount
  deriving DecidableEq, Repr

/-- Instruction handler of move_player.rs. Profile initialization, presence
bookkeeping, rent reimbursement and event emission touch no modelled state
and are omitted; `now` is `Clock::get()?.slot`. -/
def handler (authority player : Pubkey) (session : Option SessionAuthority)
    (global : GlobalAccount) (player_account : PlayerAccount)
    (current_room target_room : RoomAccount) (now : Nat) (new_x new_y : Int) :
    Except ChainDepthError MoveResult :=
  match authorize_player_action authority player session now
      session_instruction_bits.MOVE_PLAYER 0 with
  | .error e => .error e
  | .ok session1 =>
  if ¬ (GlobalAccount.MIN_COORD ≤ new_x ∧ new_x ≤ GlobalAccount.MAX_COORD) then
    .error .OutOfBounds
  else if ¬ (GlobalAccount.MIN_COORD ≤ new_y ∧ new_y ≤ GlobalAccount.MAX_COORD) then
    .error .OutOfBounds
  else
  let player_account :=
    if player_account.owner = 0 then fresh_player_account player global.season_seed
    else player_account
  let from_x := player_account.current_room_x
  let from_y := player_account.current_room_y
  let dx := i8abs (i8wrap (new_x - from_x))
  let dy := i8abs (i8wrap (new_y - from_y))
  if ¬ ((dx = 1 ∧ dy = 0) ∨ (dx = 0 ∧ dy = 1)) then
    .error .NotAdjacent
  else
  let direction : Nat := direction_of from_x from_y new_x new_y
  if ¬ (current_room.walls.getD direction 0 = WALL_OPEN) then
    .error .WallNotOpen
  else
  let opposite_direction := RoomAccount.opposite_direction direction
  let is_new_room := target_room.season_seed = 0
  let target_room :=
    if is_new_room then
      init_target_room global player new_x new_y opposite_direction now
    else target_room
  let target_room :=
    { target_room with walls := target_room.walls.set opposite_direction WALL_OPEN }
  let return_wall_state := target_room.walls.getD opposite_direction 0
  if ¬ (return_wall_state = WALL_OPEN) then
    .error .WallNotOpen
  else
  let room_depth := calculate_depth new_x new_y
  let global :=
    if room_depth > global.depth then { global with depth := room_depth } else global
  let player_account :=
    { player_account with current_room_x := new_x, current_room_y := new_y }
  .ok { session := session1
        global := global
        player_account := player_account
        target_room := target_room }

end move_player

namespace join_job_with_session

/-- Result state of a successful `join_job_with_session` transaction. -/
structure JoinResult where
  session : Option SessionAuthority
  room : RoomAccount
  player_account : PlayerAccount
  deriving DecidableEq, Repr

/-- Instruction handler of join_job_with_session.rs. The room-presence PDA
validation, the helper-stake account creation and the SPL stake transfer
touch no modelled state (any failure there still aborts the whole
transaction) and are omitted; `now` is `Clock::get()?.slot`. The session
account is mandatory for this instruction. -/
def handler (authority player : Pubkey) (session : SessionAuthority)
    (global : GlobalAccount) (room : RoomAccount)
    (player_account : PlayerAccount) (now : Nat) (direction : Nat) :
    Except ChainDepthError JoinResult :=
  match authorize_player_action authority player (some session) now
      session_instruction_bits.JOIN_JOB RoomAccount.STAKE_AMOUNT with
  | .error e => .error e
  | .ok session1 =>
  if ¬ (RoomAccount.is_valid_direction direction) then
    .error .InvalidDirection
  else if ¬ (room.is_rubble direction) then
    .error .NotRubble
  else if player_account.has_active_job room.x room.y direction then
    .error .AlreadyJoined
  else if room.job_completed.getD direction false then
    .error .JobAlreadyCompleted
  else
  let room :=
    if room.helper_counts.getD direction 0 = 0 then
      { room with
          start_slot := room.start_slot.set direction now
          base_slots := room.base_slots.set direction
            (RoomAccount.calculate_base_slots global.depth)
          progress := room.progress.set direction 0
          bonus_per_helper := room.bonus_per_helper.set direction 0
          job_completed := room.job_completed.set direction false }
    else room
  if room.helper_counts.getD direction 0 + 1 ≥ 2 ^ 32 then
    .error .Overflow
  else
  let room :=
    { room with helper_counts :=
        room.helper_counts.set direction (room.helper_counts.getD direction 0 + 1) }
  if room.total_staked.getD direction 0 + RoomAccount.STAKE_AMOUNT ≥ 2 ^ 64 then
    .error .Overflow
  else
  let room :=
    { room with total_staked := room.total_staked.set direction (room.total_staked.getD direction 0 + RoomAccount.STAKE_AMOUNT) }
  match player_account.add_job room.x room.y direction with
  | .error e => .error e
  | .ok player_account1 =>
    .ok { session := session1, room := room, player_account := player_account1 }

end join_job_with_session

namespace complete_job

/-- Adjacent-room initialization block of the handler of complete_job.rs
(executed when the adjacent room does not exist yet). The stored base slots
use the global depth plus one, unlike the block in move_player.rs which uses
the room's own depth. -/
def init_adjacent_room (global : GlobalAccount) (player : Pubkey)
    (room_x room_y : Int) (direction opposite_dir : Nat) (now : Nat) :
    RoomAccount :=
  let ax := adjacent_x room_x direction
  let ay := adjacent_y room_y direction
  let room_hash := generate_room_hash global.season_seed ax ay
  let room_depth := calculate_depth ax ay
  let center := generate_room_center global.season_seed ax ay room_depth
  let boss_max_hp :=
    if center.1 = CENTER_BOSS then
      RoomAccount.boss_hp_for_depth room_depth center.2
    else 0
  { x := ax
    y := ay
    season_seed := global.season_seed
    walls := generate_walls room_hash opposite_dir
    helper_counts := List.replicate 4 0
    progress := List.replicate 4 0
    start_slot := List.replicate 4 0
    base_slots := List.replicate 4
      (RoomAccount.calculate_base_slots ((global.depth + 1) % 2 ^ 32))
    total_staked := List.replicate 4 0
    job_completed := List.replicate 4 false
    bonus_per_helper := List.replicate 4 0
    has_chest := center.1 = CENTER_CHEST
    center_type := center.1
    center_id := center.2
    boss_max_hp := boss_max_hp
    boss_current_hp := boss_max_hp
    boss_last_update_slot := now
    boss_total_dps := 0
    boss_fighter_count := 0
    boss_defeated := false
    looted_count := 0
    looted_by := []
    created_by := player
    created_slot := now }

/-- Result state of a successful `complete_job` transaction. `bonus_total` is
the amount transferred from the prize pool into the escrow, and
`prize_pool_amount` is the prize pool balance after that transfer. -/
structure CompleteResult where
  session : Option SessionAuthority
  global : GlobalAccount
  room : RoomAccount
  adjacent_room : RoomAccount
  prize_pool_amount : Nat
  bonus_total : Nat
  bonus_per_helper : Nat
  deriving DecidableEq, Repr

/-- Instruction handler of complete_job.rs. Rent reimbursement lamport moves
and event emission touch no modelled state and are omitted; the SPL transfer
from the prize pool to the escrow is modelled by debiting
`prize_pool_amount`; `now` is `Clock::get()?.slot`. -/
def handler (authority player : Pubkey) (session : Option SessionAuthority)
    (global : GlobalAccount) (room adjacent_room : RoomAccount)
    (player_account : PlayerAccount) (prize_pool_amount : Nat) (now : Nat)
    (direction : Nat) : Except ChainDepthError CompleteResult :=
  match authorize_player_action authority player session now
      session_instruction_bits.COMPLETE_JOB 0 with
  | .error e => .error e
  | .ok session1 =>
  if ¬ (RoomAccount.is_valid_direction direction) then
    .error .InvalidDirection
  else if ¬ (room.is_rubble direction) then
    .error .NotRubble
  else if ¬ (room.helper_counts.getD direction 0 > 0) then
    .error .NoActiveJob
  else if room.job_completed.getD direction false then
    .error .JobAlreadyCompleted
  else if ¬ (room.progress.getD direction 0 ≥ room.base_slots.getD direction 0) then
    .error .JobNotReady
  else if ¬ (player_account.has_active_job room.x room.y direction) then
    .error .NotHelper
  else
  let helper_count := room.helper_counts.getD direction 0
  let room :=
    { room with
        walls := room.walls.set direction WALL_OPEN
        job_completed := room.job_completed.set direction true }
  let opposite_dir := RoomAccount.opposite_direction direction
  let is_new_adjacent_room := adjacent_room.season_seed = 0
  let adjacent_room :=
    if is_new_adjacent_room then
      init_adjacent_room global player room.x room.y direction opposite_dir now
    else adjacent_room
  let adjacent_room :=
    { adjacent_room with
        walls := adjacent_room.walls.set opposite_dir WALL_OPEN }
  let return_wall_state := adjacent_room.walls.getD opposite_dir 0
  if ¬ (return_wall_state = WALL_OPEN) then
    .error .WallNotOpen
  else
  let new_depth := calculate_depth adjacent_room.x adjacent_room.y
  let global :=
    { global with
        depth := if new_depth > global.depth then new_depth else global.depth
        jobs_completed := wadd64 global.jobs_completed 1 }
  let base_bonus_per_helper := calculate_bonus global.jobs_completed helper_count
  if base_bonus_per_helper * helper_count ≥ 2 ^ 64 then
    .error .Overflow
  else
  let desired_bonus_total := base_bonus_per_helper * helper_count
  let bonus_total := min desired_bonus_total prize_pool_amount
  let prize_pool_amount := prize_pool_amount - bonus_total
  let bonus_per_helper := bonus_total / helper_count
  let room :=
    { room with bonus_per_helper := room.bonus_per_helper.set direction bonus_per_helper }
  .ok { session := session1
        global := global
        room := room
        adjacent_room := adjacent_room
        prize_pool_amount := prize_pool_amount
        bonus_total := bonus_total
        bonus_per_helper := bonus_per_helper }

end complete_job

namespace loot_boss

/-- Result state of a successful `loot_boss` transaction. -/
structure LootResult where
  session : Option SessionAuthority
  room : RoomAccount
  player_account : PlayerAccount
  deriving DecidableEq, Repr

/-- Instruction handler of loot_boss.rs (the gating and looted-set part; the
boss-fight PDA existence is enforced by the account layout, and the loot
item roll plus inventory insertion touch only the inventory account, which is
outside the claims modelled here). -/
def handler (authority player : Pubkey) (session : Option SessionAuthority)
    (room : RoomAccount) (player_account : PlayerAccount) (now : Nat) :
    Except ChainDepthError LootResult :=
  match authorize_player_action authority player session now
      session_instruction_bits.LOOT_BOSS 0 with
  | .error e => .error e
  | .ok session1 =>
  if ¬ (room.center_type = CENTER_BOSS) then
    .error .NoBoss
  else if ¬ room.boss_defeated then
    .error .BossNotDefeated
  else if ¬ (player_account.is_at_room room.x room.y) then
    .error .NotInRoom
  else if room.has_looted player then
    .error .AlreadyLooted
  else if ¬ (room.looted_by.length < MAX_LOOTERS) then
    .error .MaxLootersReached
  else
  let room := { room with looted_by := room.looted_by ++ [player] }
  let player_account :=
    { player_account with chests_looted := (player_account.chests_looted + 1) % 2 ^ 32 }
  .ok { session := session1, room := room, player_account := player_account }

end loot_boss

/-- Wall generation as worded by the spec for comparison with the source
(refinement check only, not translated from the source): "each of the
remaining three walls is derived from a distinct 8-bit slice of the hash
reduced mod 10", i.e. the byte `(hash >> (8*i)) & 0xFF` taken mod 10. -/
def spec_generate_walls_eight_bit_slice (hash : Nat) (entrance_dir : Nat) : List Nat :=
  (List.range 4).map (fun i =>
    if i = entrance_dir then
      WALL_OPEN
    else
      let wall_hash := ((hash >>> (i * 8)) % 256) % 10
      if wall_hash < 6 then WALL_RUBBLE
      else if wall_hash < 9 then 0
      else WALL_OPEN)

section Samples

/-! Concrete sample states used by the witness and counterexample theorems. -/

/-- Sample room at (5,5): north wall open, south and east walls rubble, west
wall solid; a two-helper ready job on the south wall (direction 1). -/
def sample_room : RoomAccount :=
  { x := 5, y := 5, season_seed := 7,
    walls := [2, 1, 1, 0],
    helper_counts := [0, 2, 0, 0],
    progress := [0, 300, 0, 0],
    start_slot := [0, 0, 0, 0],
    base_slots := [300, 300, 300, 300],
    total_staked := [0, 20000000, 0, 0],
    job_completed := [false, false, false, false],
    bonus_per_helper := [0, 0, 0, 0],
    has_chest := false, center_type := 0, center_id := 0,
    boss_max_hp := 0, boss_current_hp := 0, boss_last_update_slot := 0,
    boss_total_dps := 0, boss_fighter_count := 0, boss_defeated := false,
    looted_count := 0, looted_by := [], created_by := 1, created_slot := 0 }

/-- Sample player 9 standing at (5,5), a helper of the (5,5) south job. -/
def sample_player_account : PlayerAccount :=
  { owner := 9, current_room_x := 5, current_room_y := 5,
    active_jobs := [⟨5, 5, 1⟩], jobs_completed := 0, chests_looted := 0,
    equipped_item_id := 0, season_seed := 7 }

/-- Sample already-existing room at (5,4), south of the sample room. -/
def sample_room_south : RoomAccount :=
  { sample_room with
      x := 5
      y := 4
      walls := [1, 1, 1, 1]
      helper_counts := [0, 0, 0, 0]
      progress := [0, 0, 0, 0]
      total_staked := [0, 0, 0, 0] }

/-- Sample already-existing room at (5,6), north of the sample room. -/
def sample_room_north : RoomAccount :=
  { sample_room_south with y := 6 }

/-- Sample global account for season seed 7 with no completed jobs yet. -/
def sample_global : GlobalAccount :=
  { season_seed := 7, depth := 0, jobs_completed := 0, admin := 1 }

/-- Sample session for player 9 delegated to key 4: active, window [0,1000),
allowlist containing only the JOIN_JOB bit, cap of one stake. -/
def sample_session : SessionAuthority :=
  { start_time := 0, end_time := 1000, is_active := true,
    allowed_instructions := session_instruction_bits.JOIN_JOB,
    remaining_cap := RoomAccount.STAKE_AMOUNT }

/-- Sample defeated-boss room at (5,5). -/
def sample_boss_room : RoomAccount :=
  { sample_room with
      center_type := 2
      center_id := 1
      boss_max_hp := 600
      boss_current_hp := 0
      boss_defeated := true }

/-- Sample boss room already looted by player 9. -/
def sample_boss_room_looted : RoomAccount :=
  { sample_boss_room with looted_by := [9] }

/-- Sample boss room with a full looted-set not containing player 9. -/
def sample_boss_room_full : RoomAccount :=
  { sample_boss_room with looted_by := [1, 2, 3, 4, 5, 6, 7, 8, 10, 11] }

/-- Sample session whose remaining cap is below the stake amount. -/
def sample_session_low_cap : SessionAuthority :=
  { sample_session with remaining_cap := 5 }

/-- Sample session whose allowlist has only the COMPLETE_JOB bit. -/
def sample_session_complete_only : SessionAuthority :=
  { sample_session with
      allowed_instructions := session_instruction_bits.COMPLETE_JOB }

/-- Sample room with a single-helper job on the east wall (direction 2) whose
progress (5 slots) is far short of the 300-slot requirement. -/
def sample_room_not_ready : RoomAccount :=
  { sample_room with
      helper_counts := [0, 0, 1, 0]
      progress := [0, 0, 5, 0] }

/-- Sample player 9 registered as helper of the (5,5) east job. -/
def sample_player_account_east : PlayerAccount :=
  { sample_player_account with active_jobs := [⟨5, 5, 2⟩] }

/-- Extracts the success state of a run, with an explicit fallback for the
error case (used only to name concrete successful runs in witnesses). -/
def result_of {α : Type} (fallback : α) : Except ChainDepthError α → α
  | .ok r => r
  | .error _ => fallback

/-- Result state of the sample move: player 9 moves north from (5,5) into
the already-existing room (5,6). -/
def sample_move_result : move_player.MoveResult :=
  result_of ⟨none, sample_global, sample_player_account, sample_room⟩
    (move_player.handler 9 9 none sample_global sample_player_account
      sample_room sample_room_north 100 5 6)

/-- Result state of the sample completion: player 9 completes the two-helper
south job of (5,5) with a 300000 prize pool and no prior completions. -/
def sample_complete_result : complete_job.CompleteResult :=
  result_of ⟨none, sample_global, sample_room, sample_room, 0, 0, 0⟩
    (complete_job.handler 9 9 none sample_global sample_room sample_room_south
      sample_player_account 300000 100 1)

/-- Sample global account with 99 jobs already completed this season. -/
def sample_global_99 : GlobalAccount :=
  { sample_global with jobs_completed := 99 }

/-- Sample room whose ready south job has a single helper. -/
def sample_room_one_helper : RoomAccount :=
  { sample_room with
      helper_counts := [0, 1, 0, 0]
      total_staked := [0, 10000000, 0, 0] }

/-- Result state of the counterexample completion: one helper, 99 prior
completions, ample prize pool. -/
def sample_complete_result_99 : complete_job.CompleteResult :=
  result_of ⟨none, sample_global, sample_room, sample_room, 0, 0, 0⟩
    (complete_job.handler 9 9 none sample_global_99 sample_room_one_helper
      sample_room_south sample_player_account 1000000000 100 1)

end Samples

/-! ## Helper lemmas -/

/-- Parity of the wrapped hash mix used by `generate_start_walls`. -/
lemma wrapped_mix_parity (seed d : Nat) :
    wadd64 (wmul64 seed 31) d % 2 = (seed * 31 + d) % 2 := by
  unfold wadd64 wmul64
  omega

/-- Unfolding of `generate_start_walls` to its four entries. -/
lemma generate_start_walls_entries (seed : Nat) :
    RoomAccount.generate_start_walls seed =
      [if (seed * 31 + 0) % 2 = 0 then WALL_OPEN else WALL_RUBBLE,
       if (seed * 31 + 1) % 2 = 0 then WALL_OPEN else WALL_RUBBLE,
       if (seed * 31 + 2) % 2 = 0 then WALL_OPEN else WALL_RUBBLE,
       if (seed * 31 + 3) % 2 = 0 then WALL_OPEN else WALL_RUBBLE] := by
  unfold RoomAccount.generate_start_walls
  have hr : List.range 4 = [0, 1, 2, 3] := rfl
  rw [hr]
  simp only [List.map, wrapped_mix_parity]

/-- Reading back an in-bounds list update. -/
lemma getD_set_self (l : List Nat) (n v d : Nat) (h : n < l.length) :
    (l.set n v).getD n d = v := by
  simp [List.getD_eq_getElem?_getD, List.getElem?_set_self, h]

/-- A rubble wall lies within the walls array. -/
lemma lt_length_of_is_rubble (r : RoomAccount) (direction : Nat)
    (h : r.is_rubble direction = true) : direction < r.walls.length := by
  by_contra hlen
  have hnone : r.walls[direction]? = none := List.getElem?_eq_none (by omega)
  simp [RoomAccount.is_rubble, List.getD_eq_getElem?_getD, hnone, WALL_RUBBLE] at h

/-- Inversion of a successful `complete_job` run: the guards held on entry,
the wall opens on both sides, the season completion counter is incremented
before the bonus is computed, and the bonus fields satisfy the capped,
evenly-divided formulas. -/
lemma complete_job_run_inversion
    (authority player : Pubkey) (session : Option SessionAuthority)
    (global : GlobalAccount) (room adjacent : RoomAccount)
    (pa : PlayerAccount) (pool now direction : Nat)
    (r : complete_job.CompleteResult)
    (hrun : complete_job.handler authority player session global room adjacent
      pa pool now direction = .ok r) :
    let hc := room.helper_counts.getD direction 0
    let opp := RoomAccount.opposite_direction direction
    let adj0 := if adjacent.season_seed = 0 then
        complete_job.init_adjacent_room global player room.x room.y direction
          opp now
      else adjacent
    let jobs1 := wadd64 global.jobs_completed 1
    room.is_rubble direction = true
    ∧ 0 < hc
    ∧ room.base_slots.getD direction 0 ≤ room.progress.getD direction 0
    ∧ r.room.walls = room.walls.set direction WALL_OPEN
    ∧ r.room.walls.getD direction 0 = WALL_OPEN
    ∧ r.room.job_completed = room.job_completed.set direction true
    ∧ r.adjacent_room = { adj0 with walls := adj0.walls.set opp WALL_OPEN }
    ∧ r.adjacent_room.walls.getD opp 0 = WALL_OPEN
    ∧ r.global.jobs_completed = jobs1
    ∧ r.bonus_total = min (complete_job.calculate_bonus jobs1 hc * hc) pool
    ∧ r.bonus_per_helper = r.bonus_total / hc
    ∧ r.room.bonus_per_helper
        = room.bonus_per_helper.set direction r.bonus_per_helper
    ∧ r.prize_pool_amount = pool - r.bonus_total := by
  intro hc opp adj0 jobs1
  unfold complete_job.handler at hrun
  rcases hA : authorize_player_action authority player session now
      session_instruction_bits.COMPLETE_JOB 0 with e | s1
  all_goals rw [hA] at hrun
  · exact Except.noConfusion hrun
  · dsimp only at hrun
    have hv : RoomAccount.is_valid_direction direction = true := by
      by_contra h
      rw [if_pos h] at hrun
      exact Except.noConfusion hrun
    rw [if_neg (not_not_intro hv)] at hrun
    have hrub : room.is_rubble direction = true := by
      by_contra h
      rw [if_pos h] at hrun
      exact Except.noConfusion hrun
    rw [if_neg (not_not_intro hrub)] at hrun
    have hlen : direction < room.walls.length :=
      lt_length_of_is_rubble room direction hrub
    have hh : room.helper_counts.getD direction 0 > 0 := by
      by_contra h
      rw [if_pos h] at hrun
      exact Except.noConfusion hrun
    rw [if_neg (not_not_intro hh)] at hrun
    have hcomp : room.job_completed.getD direction false = false := by
      rcases Bool.eq_false_or_eq_true (room.job_completed.getD direction false)
        with hb | hb
      · rw [if_pos hb] at hrun
        exact Except.noConfusion hrun
      · exact hb
    rw [if_neg (show ¬ room.job_completed.getD direction false = true by
      simpa using hcomp)] at hrun
    have hprog : room.progress.getD direction 0
        ≥ room.base_slots.getD direction 0 := by
      by_contra h
      rw [if_pos h] at hrun
      exact Except.noConfusion hrun
    rw [if_neg (not_not_intro hprog)] at hrun
    have hhelper : pa.has_active_job room.x room.y direction = true := by
      by_contra h
      rw [if_pos h] at hrun
      exact Except.noConfusion hrun
    rw [if_neg (not_not_intro hhelper)] at hrun
    have hwall : (adj0.walls.set opp WALL_OPEN).getD opp 0 = WALL_OPEN := by
      by_contra h
      rw [if_pos h] at hrun
      exact Except.noConfusion hrun
    rw [if_neg (not_not_intro hwall)] at hrun
    have hov : ¬ complete_job.calculate_bonus (wadd64 global.jobs_completed 1)
        (room.helper_counts.getD direction 0)
        * room.helper_counts.getD direction 0 ≥ 2 ^ 64 := by
      by_contra h
      rw [if_pos h] at hrun
      exact Except.noConfusion hrun
    rw [if_neg hov] at hrun
    injection hrun with hr
    subst hr
    exact ⟨hrub, hh, hprog, rfl, getD_set_self _ _ _ _ hlen, rfl, rfl, hwall,
      rfl, rfl, rfl, rfl, rfl⟩

/-- Inversion of a successful `move_player` run: the crossing direction is
derived from the (possibly just-initialized) player position, the departure
wall must have been Open, and the result state is the target room with its
entrance-back wall opened plus the player moved to the target coordinates. -/
lemma move_player_run_inversion
    (authority player : Pubkey) (session : Option SessionAuthority)
    (global : GlobalAccount) (pa : PlayerAccount)
    (current_room target_room : RoomAccount) (now : Nat) (new_x new_y : Int)
    (r : move_player.MoveResult)
    (hrun : move_player.handler authority player session global pa current_room
      target_room now new_x new_y = .ok r) :
    let pa1 := if pa.owner = 0 then
        move_player.fresh_player_account player global.season_seed
      else pa
    let d := move_player.direction_of pa1.current_room_x pa1.current_room_y
      new_x new_y
    let opp := RoomAccount.opposite_direction d
    let tgt0 := if target_room.season_seed = 0 then
        move_player.init_target_room global player new_x new_y opp now
      else target_room
    current_room.walls.getD d 0 = WALL_OPEN
    ∧ r.target_room = { tgt0 with walls := tgt0.walls.set opp WALL_OPEN }
    ∧ r.target_room.walls.getD opp 0 = WALL_OPEN
    ∧ r.player_account =
        { pa1 with current_room_x := new_x, current_room_y := new_y } := by
  intro pa1 d opp tgt0
  unfold move_player.handler at hrun
  rcases hA : authorize_player_action authority player session now
      session_instruction_bits.MOVE_PLAYER 0 with e | s1
  all_goals rw [hA] at hrun
  · simp at hrun
  · dsimp only at hrun
    split_ifs at hrun with h1 h2 h3 h4 h5 h6 <;> try simp at hrun
    all_goals subst hrun
    all_goals simp_all [pa1, d, opp, tgt0]

/-! ## Claim theorems -/

/-- C2: the first join on a job with zero helpers initializes `start_slot`
to the current slot, resets `progress` and `bonus_per_helper` to 0 and sets
the base requirement to `calculate_base_slots(global depth)`, with
`calculate_base_slots 0 = 300`; however the claim (and the source comment
"Base increases by 10% every 10 depth levels") says the requirement is 10%
larger for depths 10-19 than for depths 0-9, while the implementation
`300 * (depth / 10 + 1)` makes it 100% larger: at depth 10 the code yields
600 slots, not the 330 the claimed 10% growth demands. -/
theorem calculate_base_slots_doubles_instead_of_ten_percent :
    RoomAccount.calculate_base_slots 0 = 300
    ∧ RoomAccount.calculate_base_slots 9 = 300
    ∧ RoomAccount.calculate_base_slots 10 = 600
    ∧ RoomAccount.calculate_base_slots 19 = 600
    ∧ ¬ RoomAccount.calculate_base_slots 10 = 330 := by
  decide

/-- C8: the world-generator function copies in move_player.rs and
complete_job.rs are extensionally equal, the start coordinates being (5,5). -/
theorem world_generator_copies_agree :
    (∀ (seed : Nat) (x y : Int),
        move_player.generate_room_hash seed x y
          = complete_job.generate_room_hash seed x y)
    ∧ (∀ (hash entrance : Nat),
        move_player.generate_walls hash entrance
          = complete_job.generate_walls hash entrance)
    ∧ (∀ (x y : Int),
        move_player.calculate_depth x y = complete_job.calculate_depth x y)
    ∧ (∀ (seed : Nat) (x y : Int),
        move_player.is_forced_depth_one_chest seed x y
          = complete_job.is_forced_depth_one_chest seed x y)
    ∧ (∀ (seed : Nat) (x y : Int) (depth : Nat),
        move_player.generate_room_center seed x y depth
          = complete_job.generate_room_center seed x y depth) := by
  refine ⟨fun seed x y => rfl, fun hash e => rfl, fun x y => rfl,
    fun seed x y => rfl, fun seed x y depth => rfl⟩

/-- C5 counterexample: the non-entrance walls are not derived from an 8-bit
slice of the hash reduced mod 10. At hash 65536 with entrance 0, the wall in
direction 1 uses `(65536 >> 8) % 10 = 256 % 10 = 6`, yielding Solid, while
the 8-bit slice `((65536 >> 8) & 0xFF) % 10 = 0` would map to Rubble. -/
theorem generate_walls_differs_from_eight_bit_slice :
    complete_job.generate_walls 65536 0
        ≠ spec_generate_walls_eight_bit_slice 65536 0
    ∧ (complete_job.generate_walls 65536 0).getD 1 0 = WALL_SOLID
    ∧ ((65536 >>> (1 * 8)) % 256) % 10 = 0 := by
  decide

/-- C5 amended: `generate_walls` forces the entrance wall Open, and each
other wall i is derived from the hash shifted right by 8·i bits (a distinct
offset per direction, but using all higher bits, not only an 8-bit slice)
reduced mod 10, with residues 0-5 mapping to Rubble, 6-8 to Solid and 9 to
Open. -/
theorem generate_walls_entrance_open_and_residue_map
    (hash entrance_dir : Nat) (hdir : entrance_dir < 4) :
    (complete_job.generate_walls hash entrance_dir).getD entrance_dir 0 = WALL_OPEN
    ∧ (∀ i, i < 4 → i ≠ entrance_dir →
        ((hash >>> (i * 8)) % 10 < 6 →
          (complete_job.generate_walls hash entrance_dir).getD i 0 = WALL_RUBBLE)
        ∧ (6 ≤ (hash >>> (i * 8)) % 10 → (hash >>> (i * 8)) % 10 < 9 →
          (complete_job.generate_walls hash entrance_dir).getD i 0 = WALL_SOLID)
        ∧ ((hash >>> (i * 8)) % 10 = 9 →
          (complete_job.generate_walls hash entrance_dir).getD i 0 = WALL_OPEN)) := by
  have hgw : complete_job.generate_walls hash entrance_dir =
      [if 0 = entrance_dir then WALL_OPEN else
        (if (hash >>> (0 * 8)) % 10 < 6 then WALL_RUBBLE
         else if (hash >>> (0 * 8)) % 10 < 9 then 0 else WALL_OPEN),
       if 1 = entrance_dir then WALL_OPEN else
        (if (hash >>> (1 * 8)) % 10 < 6 then WALL_RUBBLE
         else if (hash >>> (1 * 8)) % 10 < 9 then 0 else WALL_OPEN),
       if 2 = entrance_dir then WALL_OPEN else
        (if (hash >>> (2 * 8)) % 10 < 6 then WALL_RUBBLE
         else if (hash >>> (2 * 8)) % 10 < 9 then 0 else WALL_OPEN),
       if 3 = entrance_dir then WALL_OPEN else
        (if (hash >>> (3 * 8)) % 10 < 6 then WALL_RUBBLE
         else if (hash >>> (3 * 8)) % 10 < 9 then 0 else WALL_OPEN)] := by
    unfold complete_job.generate_walls
    have hr : List.range 4 = [0, 1, 2, 3] := rfl
    rw [hr]
    simp only [List.map]
  constructor
  case left =>
    interval_cases entrance_dir <;> simp [hgw, WALL_OPEN]
  case right =>
    intro i hi hne
    interval_cases i <;> interval_cases entrance_dir <;>
      simp_all [hgw, WALL_OPEN, WALL_RUBBLE, WALL_SOLID]

/-- C5 witness: the amended wall-residue theorem instantiated at hash 65536
(whose byte offsets give residues 6, 6, 0, 0) and entrance direction 0. -/
theorem generate_walls_residue_map_witness :
    (0 : Nat) < 4
    ∧ (complete_job.generate_walls 65536 0).getD 0 0 = WALL_OPEN
    ∧ ((65536 >>> (1 * 8)) % 10 ≥ 6 → (65536 >>> (1 * 8)) % 10 < 9 →
        (complete_job.generate_walls 65536 0).getD 1 0 = WALL_SOLID) :=
  ⟨by decide,
   (generate_walls_entrance_open_and_residue_map 65536 0 (by decide)).1,
   ((generate_walls_entrance_open_and_residue_map 65536 0 (by decide)).2 1
      (by decide) (by decide)).2.1⟩

/-- C9: the start-room walls contain no Solid wall; wall d is Open exactly
when `seed*31 + d` is even (wrapping arithmetic) and Rubble otherwise, so
the start room always has exactly two Open and two Rubble walls. -/
theorem generate_start_walls_parity (seed : Nat) :
    ((RoomAccount.generate_start_walls seed).getD 0 0 = WALL_OPEN
        ↔ (seed * 31 + 0) % 2 = 0)
    ∧ ((RoomAccount.generate_start_walls seed).getD 1 0 = WALL_OPEN
        ↔ (seed * 31 + 1) % 2 = 0)
    ∧ ((RoomAccount.generate_start_walls seed).getD 2 0 = WALL_OPEN
        ↔ (seed * 31 + 2) % 2 = 0)
    ∧ ((RoomAccount.generate_start_walls seed).getD 3 0 = WALL_OPEN
        ↔ (seed * 31 + 3) % 2 = 0)
    ∧ ((RoomAccount.generate_start_walls seed).getD 0 0 = WALL_RUBBLE
        ↔ ¬ (seed * 31 + 0) % 2 = 0)
    ∧ ((RoomAccount.generate_start_walls seed).getD 1 0 = WALL_RUBBLE
        ↔ ¬ (seed * 31 + 1) % 2 = 0)
    ∧ ((RoomAccount.generate_start_walls seed).getD 2 0 = WALL_RUBBLE
        ↔ ¬ (seed * 31 + 2) % 2 = 0)
    ∧ ((RoomAccount.generate_start_walls seed).getD 3 0 = WALL_RUBBLE
        ↔ ¬ (seed * 31 + 3) % 2 = 0)
    ∧ (RoomAccount.generate_start_walls seed).count WALL_SOLID = 0
    ∧ (RoomAccount.generate_start_walls seed).count WALL_OPEN = 2
    ∧ (RoomAccount.generate_start_walls seed).count WALL_RUBBLE = 2 := by
  rw [generate_start_walls_entries]
  rcases Nat.mod_two_eq_zero_or_one seed with h | h
  · have hm : seed * 31 % 2 = 0 := by omega
    have h0 : (seed * 31 + 0) % 2 = 0 := by omega
    have h1 : (seed * 31 + 1) % 2 = 1 := by omega
    have h2 : (seed * 31 + 2) % 2 = 0 := by omega
    have h3 : (seed * 31 + 3) % 2 = 1 := by omega
    simp [hm, h0, h1, h2, h3, WALL_OPEN, WALL_RUBBLE, WALL_SOLID, List.count_cons]
  · have hm : seed * 31 % 2 = 1 := by omega
    have h0 : (seed * 31 + 0) % 2 = 1 := by omega
    have h1 : (seed * 31 + 1) % 2 = 0 := by omega
    have h2 : (seed * 31 + 2) % 2 = 1 := by omega
    have h3 : (seed * 31 + 3) % 2 = 0 := by omega
    simp [hm, h0, h1, h2, h3, WALL_OPEN, WALL_RUBBLE, WALL_SOLID, List.count_cons]

/-- C7: `loot_boss` succeeds only when the room center is a Boss, the boss
is defeated, the caller is present in the room, the caller is not already in
the looted-set and the looted-set is below capacity (and then records the
caller in the looted-set); a repeat loot by the same player fails with
`AlreadyLooted`; a loot against a full looted-set fails with
`MaxLootersReached`. An error result is an aborted transaction: no state is
produced. -/
theorem loot_boss_gating :
    (∀ (authority player : Pubkey) (session : Option SessionAuthority)
        (room : RoomAccount) (pa : PlayerAccount) (now : Nat)
        (r : loot_boss.LootResult),
      loot_boss.handler authority player session room pa now = .ok r →
      room.center_type = CENTER_BOSS ∧ room.boss_defeated = true
        ∧ pa.is_at_room room.x room.y = true
        ∧ room.has_looted player = false
        ∧ room.looted_by.length < MAX_LOOTERS
        ∧ r.room.looted_by = room.looted_by ++ [player])
    ∧ (∀ (authority player : Pubkey) (session : Option SessionAuthority)
        (room : RoomAccount) (pa : PlayerAccount) (now : Nat),
      (∃ s1, authorize_player_action authority player session now
          session_instruction_bits.LOOT_BOSS 0 = .ok s1) →
      room.center_type = CENTER_BOSS → room.boss_defeated = true →
      pa.is_at_room room.x room.y = true →
      room.has_looted player = true →
      loot_boss.handler authority player session room pa now
        = .error .AlreadyLooted)
    ∧ (∀ (authority player : Pubkey) (session : Option SessionAuthority)
        (room : RoomAccount) (pa : PlayerAccount) (now : Nat),
      (∃ s1, authorize_player_action authority player session now
          session_instruction_bits.LOOT_BOSS 0 = .ok s1) →
      room.center_type = CENTER_BOSS → room.boss_defeated = true →
      pa.is_at_room room.x room.y = true →
      room.has_looted player = false →
      ¬ room.looted_by.length < MAX_LOOTERS →
      loot_boss.handler authority player session room pa now
        = .error .MaxLootersReached) := by
  refine ⟨?_, ?_, ?_⟩
  · intro authority player session room pa now r hrun
    unfold loot_boss.handler at hrun
    rcases hA : authorize_player_action authority player session now
        session_instruction_bits.LOOT_BOSS 0 with e | s1
    all_goals rw [hA] at hrun
    · simp at hrun
    · split_ifs at hrun with h1 h2 h3 h4 h5
      all_goals try simp at hrun
      subst hrun
      exact ⟨h1, h2, h3, by simpa using h4, h5, by simp⟩
  · intro authority player session room pa now ⟨s1, hA⟩ hc hb hat hl
    unfold loot_boss.handler
    rw [hA]
    simp [hc, hb, hat, hl]
  · intro authority player session room pa now ⟨s1, hA⟩ hc hb hat hl hcap
    unfold loot_boss.handler
    rw [hA]
    simp [hc, hb, hat, hl, hcap]

/-- C7 witness: player 9 (self-signed) looting sample boss rooms; the repeat
loot aborts with `AlreadyLooted` and the full-set loot with
`MaxLootersReached`. -/
theorem loot_boss_gating_witness :
    (authorize_player_action 9 9 none 100 session_instruction_bits.LOOT_BOSS 0
        = .ok none
      ∧ sample_boss_room_looted.center_type = CENTER_BOSS
      ∧ sample_boss_room_looted.boss_defeated = true
      ∧ sample_player_account.is_at_room sample_boss_room_looted.x
          sample_boss_room_looted.y = true
      ∧ sample_boss_room_looted.has_looted 9 = true
      ∧ sample_boss_room_full.has_looted 9 = false
      ∧ ¬ sample_boss_room_full.looted_by.length < MAX_LOOTERS)
    ∧ loot_boss.handler 9 9 none sample_boss_room_looted sample_player_account 100
        = .error .AlreadyLooted
    ∧ loot_boss.handler 9 9 none sample_boss_room_full sample_player_account 100
        = .error .MaxLootersReached :=
  ⟨⟨rfl, by decide, by decide, by decide, by decide, by decide, by decide⟩,
   loot_boss_gating.2.1 9 9 none sample_boss_room_looted sample_player_account 100
     ⟨none, rfl⟩ (by decide) (by decide) (by decide) (by decide),
   loot_boss_gating.2.2 9 9 none sample_boss_room_full sample_player_account 100
     ⟨none, rfl⟩ (by decide) (by decide) (by decide) (by decide) (by decide)⟩

/-- C4: the authorization policy: a self-signed action is authorized
unconditionally with the session untouched; otherwise the session must be
within [start, end) (else `SessionExpired`), active (else
`SessionInactive`), have the requested instruction bit in its allowlist
(else `SessionInstructionNotAllowed`) and have `remaining_cap` at least the
requested spend (else `SessionSpendCapExceeded`); on success the cap is
debited by the requested spend, a zero spend debiting nothing; a session
join requests `STAKE_AMOUNT`, so a join through a session whose cap is below
the stake aborts with `SessionSpendCapExceeded`. -/
theorem session_authorization_policy :
    (∀ (signer : Pubkey) (session : Option SessionAuthority) (now ins spend : Nat),
      authorize_player_action signer signer session now ins spend = .ok session)
    ∧ (∀ (signer player : Pubkey) (s : SessionAuthority) (now ins spend : Nat),
      signer ≠ player → ¬ (s.start_time ≤ now ∧ now < s.end_time) →
      authorize_player_action signer player (some s) now ins spend
        = .error .SessionExpired)
    ∧ (∀ (signer player : Pubkey) (s : SessionAuthority) (now ins spend : Nat),
      signer ≠ player → s.start_time ≤ now ∧ now < s.end_time →
      ¬ s.is_active = true →
      authorize_player_action signer player (some s) now ins spend
        = .error .SessionInactive)
    ∧ (∀ (signer player : Pubkey) (s : SessionAuthority) (now ins spend : Nat),
      signer ≠ player → s.start_time ≤ now ∧ now < s.end_time →
      s.is_active = true → s.allowed_instructions &&& ins = 0 →
      authorize_player_action signer player (some s) now ins spend
        = .error .SessionInstructionNotAllowed)
    ∧ (∀ (signer player : Pubkey) (s : SessionAuthority) (now ins spend : Nat),
      signer ≠ player → s.start_time ≤ now ∧ now < s.end_time →
      s.is_active = true → ¬ s.allowed_instructions &&& ins = 0 →
      s.remaining_cap < spend →
      authorize_player_action signer player (some s) now ins spend
        = .error .SessionSpendCapExceeded)
    ∧ (∀ (signer player : Pubkey) (s : SessionAuthority) (now ins spend : Nat),
      signer ≠ player → s.start_time ≤ now ∧ now < s.end_time →
      s.is_active = true → ¬ s.allowed_instructions &&& ins = 0 →
      ¬ s.remaining_cap < spend →
      authorize_player_action signer player (some s) now ins spend
        = .ok (some { s with remaining_cap := s.remaining_cap - spend }))
    ∧ (∀ (signer player : Pubkey) (s : SessionAuthority) (now ins : Nat),
      signer ≠ player → s.start_time ≤ now ∧ now < s.end_time →
      s.is_active = true → ¬ s.allowed_instructions &&& ins = 0 →
      authorize_player_action signer player (some s) now ins 0 = .ok (some s))
    ∧ (∀ (authority player : Pubkey) (s : SessionAuthority)
        (global : GlobalAccount) (room : RoomAccount) (pa : PlayerAccount)
        (now direction : Nat),
      authority ≠ player → s.start_time ≤ now ∧ now < s.end_time →
      s.is_active = true →
      ¬ s.allowed_instructions &&& session_instruction_bits.JOIN_JOB = 0 →
      s.remaining_cap < RoomAccount.STAKE_AMOUNT →
      join_job_with_session.handler authority player s global room pa now direction
        = .error .SessionSpendCapExceeded) := by
  refine ⟨?_, ?_, ?_, ?_, ?_, ?_, ?_, ?_⟩
  · intro signer session now ins spend
    unfold authorize_player_action
    simp
  · intro signer player s now ins spend hne hw
    unfold authorize_player_action
    simp [hne, hw]
  · intro signer player s now ins spend hne hw hact
    unfold authorize_player_action
    simp [hne, hw, hact]
  · intro signer player s now ins spend hne hw hact hbit
    unfold authorize_player_action
    simp [hne, hw, hact, hbit]
  · intro signer player s now ins spend hne hw hact hbit hcap
    unfold authorize_player_action
    simp [hne, hw, hact, hbit, hcap]
  · intro signer player s now ins spend hne hw hact hbit hcap
    unfold authorize_player_action
    simp [hne, hw, hact, hbit, hcap]
  · intro signer player s now ins hne hw hact hbit
    unfold authorize_player_action
    cases s
    simp_all
  · intro authority player s global room pa now direction hne hw hact hbit hcap
    have hA : authorize_player_action authority player (some s) now
        session_instruction_bits.JOIN_JOB RoomAccount.STAKE_AMOUNT
        = .error .SessionSpendCapExceeded := by
      unfold authorize_player_action
      simp [hne, hw, hact, hbit, hcap]
    unfold join_job_with_session.handler
    rw [hA]

/-- C4 witness: the policy branches instantiated for delegate key 4 acting
for player 9 with the sample sessions around slot 100. -/
theorem session_authorization_policy_witness :
    ((4 : Pubkey) ≠ 9
      ∧ sample_session.start_time ≤ 100 ∧ 100 < sample_session.end_time
      ∧ sample_session.is_active = true
      ∧ ¬ sample_session.allowed_instructions
            &&& session_instruction_bits.JOIN_JOB = 0
      ∧ sample_session_complete_only.allowed_instructions
            &&& session_instruction_bits.JOIN_JOB = 0
      ∧ ¬ (sample_session.start_time ≤ 2000 ∧ 2000 < sample_session.end_time)
      ∧ sample_session_low_cap.remaining_cap < RoomAccount.STAKE_AMOUNT)
    ∧ authorize_player_action 9 9 (some sample_session_low_cap) 100
        session_instruction_bits.JOIN_JOB RoomAccount.STAKE_AMOUNT
        = .ok (some sample_session_low_cap)
    ∧ authorize_player_action 4 9 (some sample_session) 2000
        session_instruction_bits.JOIN_JOB 0 = .error .SessionExpired
    ∧ authorize_player_action 4 9 (some sample_session_complete_only) 100
        session_instruction_bits.JOIN_JOB 0
        = .error .SessionInstructionNotAllowed
    ∧ authorize_player_action 4 9 (some sample_session_low_cap) 100
        session_instruction_bits.JOIN_JOB RoomAccount.STAKE_AMOUNT
        = .error .SessionSpendCapExceeded
    ∧ authorize_player_action 4 9 (some sample_session) 100
        session_instruction_bits.JOIN_JOB RoomAccount.STAKE_AMOUNT
        = .ok (some { sample_session with remaining_cap := 0 })
    ∧ authorize_player_action 4 9 (some sample_session) 100
        session_instruction_bits.JOIN_JOB 0 = .ok (some sample_session)
    ∧ join_job_with_session.handler 4 9 sample_session_low_cap sample_global
        sample_room sample_player_account 100 2
        = .error .SessionSpendCapExceeded := by
  refine ⟨by refine ⟨by decide, by decide, by decide, by decide, by decide,
      by decide, by decide, by decide⟩, ?_, ?_, ?_, ?_, ?_, ?_, ?_⟩
  · exact session_authorization_policy.1 9 (some sample_session_low_cap) 100
      session_instruction_bits.JOIN_JOB RoomAccount.STAKE_AMOUNT
  · exact session_authorization_policy.2.1 4 9 sample_session 2000
      session_instruction_bits.JOIN_JOB 0 (by decide) (by decide)
  · exact session_authorization_policy.2.2.2.1 4 9 sample_session_complete_only
      100 session_instruction_bits.JOIN_JOB 0 (by decide) (by decide) (by decide)
      (by decide)
  · exact session_authorization_policy.2.2.2.2.1 4 9 sample_session_low_cap 100
      session_instruction_bits.JOIN_JOB RoomAccount.STAKE_AMOUNT (by decide)
      (by decide) (by decide) (by decide) (by decide)
  · have h := session_authorization_policy.2.2.2.2.2.1 4 9 sample_session 100
      session_instruction_bits.JOIN_JOB RoomAccount.STAKE_AMOUNT (by decide)
      (by decide) (by decide) (by decide) (by decide)
    simpa using h
  · exact session_authorization_policy.2.2.2.2.2.2.1 4 9 sample_session 100
      session_instruction_bits.JOIN_JOB (by decide) (by decide) (by decide)
      (by decide)
  · exact session_authorization_policy.2.2.2.2.2.2.2 4 9 sample_session_low_cap
      sample_global sample_room sample_player_account 100 2 (by decide)
      (by decide) (by decide) (by decide) (by decide)

/-- C6: an authorized join by a player already registered on the same
(room, direction) job aborts with `AlreadyJoined`, and an authorized
completion attempt while `progress < base_requirement` aborts with
`JobNotReady`; both are `Except.error` results, i.e. aborted transactions
producing no state change. -/
theorem join_twice_and_premature_complete_rejected :
    (∀ (authority player : Pubkey) (session : SessionAuthority)
        (global : GlobalAccount) (room : RoomAccount) (pa : PlayerAccount)
        (now direction : Nat),
      (∃ s1, authorize_player_action authority player (some session) now
          session_instruction_bits.JOIN_JOB RoomAccount.STAKE_AMOUNT = .ok s1) →
      RoomAccount.is_valid_direction direction = true →
      room.is_rubble direction = true →
      pa.has_active_job room.x room.y direction = true →
      join_job_with_session.handler authority player session global room pa
          now direction = .error .AlreadyJoined)
    ∧ (∀ (authority player : Pubkey) (session : Option SessionAuthority)
        (global : GlobalAccount) (room adjacent : RoomAccount)
        (pa : PlayerAccount) (pool now direction : Nat),
      (∃ s1, authorize_player_action authority player session now
          session_instruction_bits.COMPLETE_JOB 0 = .ok s1) →
      RoomAccount.is_valid_direction direction = true →
      room.is_rubble direction = true →
      room.helper_counts.getD direction 0 > 0 →
      room.job_completed.getD direction false = false →
      room.progress.getD direction 0 < room.base_slots.getD direction 0 →
      complete_job.handler authority player session global room adjacent pa
          pool now direction = .error .JobNotReady) := by
  constructor
  · intro authority player session global room pa now direction
      ⟨s1, hA⟩ hvalid hrubble hjoined
    unfold join_job_with_session.handler
    rw [hA]
    simp [hvalid, hrubble, hjoined]
  · intro authority player session global room adjacent pa pool now direction
      ⟨s1, hA⟩ hvalid hrubble hhelp hcomp hprog
    unfold complete_job.handler
    rw [hA]
    dsimp only
    rw [if_neg (not_not_intro hvalid), if_neg (not_not_intro hrubble),
      if_neg (not_not_intro hhelp), if_neg (by simpa using hcomp),
      if_pos (not_le.mpr hprog)]

/-- C6 witness: player 9 (self-signed) rejoining the south job it already
joined aborts with `AlreadyJoined`; completing the east job at progress 5 of
300 aborts with `JobNotReady`. -/
theorem join_twice_and_premature_complete_rejected_witness :
    (authorize_player_action 9 9 (some sample_session) 100
        session_instruction_bits.JOIN_JOB RoomAccount.STAKE_AMOUNT
        = .ok (some sample_session)
      ∧ RoomAccount.is_valid_direction 1 = true
      ∧ sample_room.is_rubble 1 = true
      ∧ sample_player_account.has_active_job sample_room.x sample_room.y 1 = true
      ∧ sample_room_not_ready.is_rubble 2 = true
      ∧ sample_room_not_ready.helper_counts.getD 2 0 > 0
      ∧ sample_room_not_ready.job_completed.getD 2 false = false
      ∧ sample_room_not_ready.progress.getD 2 0
          < sample_room_not_ready.base_slots.getD 2 0)
    ∧ join_job_with_session.handler 9 9 sample_session sample_global sample_room
        sample_player_account 100 1 = .error .AlreadyJoined
    ∧ complete_job.handler 9 9 none sample_global sample_room_not_ready
        sample_room_south sample_player_account_east 300000 100 2
        = .error .JobNotReady :=
  ⟨⟨rfl, by decide, by decide, by decide, by decide, by decide, by decide,
     by decide⟩,
   join_twice_and_premature_complete_rejected.1 9 9 sample_session sample_global
     sample_room sample_player_account 100 1 ⟨some sample_session, rfl⟩
     (by decide) (by decide) (by decide),
   join_twice_and_premature_complete_rejected.2 9 9 none sample_global
     sample_room_not_ready sample_room_south sample_player_account_east 300000
     100 2 ⟨none, rfl⟩ (by decide) (by decide) (by decide) (by decide)
     (by decide)⟩

/-- C3: after every successful crossing — by `move_player`, or by a
`complete_job` that opens the wall — the departure-side wall and the
arrival-side wall facing back are simultaneously Open. In both handlers the
entrance-back wall is read back right after being opened and a non-Open
reading aborts with `WallNotOpen` instead of being silently corrected; on
success that assertion is what the second conjunct of each part records. -/
theorem crossing_opens_both_walls :
    (∀ (authority player : Pubkey) (session : Option SessionAuthority)
        (global : GlobalAccount) (pa : PlayerAccount)
        (current_room target_room : RoomAccount) (now : Nat) (new_x new_y : Int)
        (r : move_player.MoveResult),
      move_player.handler authority player session global pa current_room
          target_room now new_x new_y = .ok r →
      let pa1 := if pa.owner = 0 then
          move_player.fresh_player_account player global.season_seed
        else pa
      let d := move_player.direction_of pa1.current_room_x pa1.current_room_y
        new_x new_y
      current_room.walls.getD d 0 = WALL_OPEN
      ∧ r.target_room.walls.getD (RoomAccount.opposite_direction d) 0
          = WALL_OPEN)
    ∧ (∀ (authority player : Pubkey) (session : Option SessionAuthority)
        (global : GlobalAccount) (room adjacent : RoomAccount)
        (pa : PlayerAccount) (pool now direction : Nat)
        (r : complete_job.CompleteResult),
      complete_job.handler authority player session global room adjacent pa
          pool now direction = .ok r →
      r.room.walls.getD direction 0 = WALL_OPEN
      ∧ r.adjacent_room.walls.getD (RoomAccount.opposite_direction direction) 0
          = WALL_OPEN) := by
  constructor
  · intro authority player session global pa current_room target_room now
      new_x new_y r hrun pa1 d
    have h := move_player_run_inversion authority player session global pa
      current_room target_room now new_x new_y r hrun
    exact ⟨h.1, h.2.2.1⟩
  · intro authority player session global room adjacent pa pool now direction
      r hrun
    have h := complete_job_run_inversion authority player session global room
      adjacent pa pool now direction r hrun
    exact ⟨h.2.2.2.2.1, h.2.2.2.2.2.2.2.1⟩

/-- C3 witness: player 9 crossing north from (5,5) into the existing room
(5,6), and completing the south job of (5,5) into the existing room (5,4). -/
theorem crossing_opens_both_walls_witness :
    (move_player.handler 9 9 none sample_global sample_player_account
        sample_room sample_room_north 100 5 6 = .ok sample_move_result
      ∧ complete_job.handler 9 9 none sample_global sample_room
          sample_room_south sample_player_account 300000 100 1
          = .ok sample_complete_result)
    ∧ (sample_room.walls.getD 0 0 = WALL_OPEN
      ∧ sample_move_result.target_room.walls.getD 1 0 = WALL_OPEN)
    ∧ (sample_complete_result.room.walls.getD 1 0 = WALL_OPEN
      ∧ sample_complete_result.adjacent_room.walls.getD 0 0 = WALL_OPEN) :=
  ⟨⟨by decide, by decide⟩,
   crossing_opens_both_walls.1 9 9 none sample_global sample_player_account
     sample_room sample_room_north 100 5 6 sample_move_result (by decide),
   crossing_opens_both_walls.2 9 9 none sample_global sample_room
     sample_room_south sample_player_account 300000 100 1
     sample_complete_result (by decide)⟩

/-- C10: when `move_player` enters a target room that already exists (stored
season seed nonzero), the only target-room field modified is the wall facing
back at the entrance, set to Open; every other field is unchanged. -/
theorem move_into_existing_room_frame
    (authority player : Pubkey) (session : Option SessionAuthority)
    (global : GlobalAccount) (pa : PlayerAccount)
    (current_room target_room : RoomAccount) (now : Nat) (new_x new_y : Int)
    (r : move_player.MoveResult)
    (hrun : move_player.handler authority player session global pa current_room
      target_room now new_x new_y = .ok r)
    (hexists : target_room.season_seed ≠ 0) :
    let pa1 := if pa.owner = 0 then
        move_player.fresh_player_account player global.season_seed
      else pa
    let d := move_player.direction_of pa1.current_room_x pa1.current_room_y
      new_x new_y
    let opp := RoomAccount.opposite_direction d
    r.target_room.walls = target_room.walls.set opp WALL_OPEN
    ∧ r.target_room.x = target_room.x
    ∧ r.target_room.y = target_room.y
    ∧ r.target_room.season_seed = target_room.season_seed
    ∧ r.target_room.helper_counts = target_room.helper_counts
    ∧ r.target_room.progress = target_room.progress
    ∧ r.target_room.start_slot = target_room.start_slot
    ∧ r.target_room.base_slots = target_room.base_slots
    ∧ r.target_room.total_staked = target_room.total_staked
    ∧ r.target_room.job_completed = target_room.job_completed
    ∧ r.target_room.bonus_per_helper = target_room.bonus_per_helper
    ∧ r.target_room.has_chest = target_room.has_chest
    ∧ r.target_room.center_type = target_room.center_type
    ∧ r.target_room.center_id = target_room.center_id
    ∧ r.target_room.boss_max_hp = target_room.boss_max_hp
    ∧ r.target_room.boss_current_hp = target_room.boss_current_hp
    ∧ r.target_room.boss_last_update_slot = target_room.boss_last_update_slot
    ∧ r.target_room.boss_total_dps = target_room.boss_total_dps
    ∧ r.target_room.boss_fighter_count = target_room.boss_fighter_count
    ∧ r.target_room.boss_defeated = target_room.boss_defeated
    ∧ r.target_room.looted_count = target_room.looted_count
    ∧ r.target_room.looted_by = target_room.looted_by
    ∧ r.target_room.created_by = target_room.created_by
    ∧ r.target_room.created_slot = target_room.created_slot := by
  intro pa1 d opp
  obtain ⟨hcur, htgt, hopen, hpa⟩ := move_player_run_inversion authority player
    session global pa current_room target_room now new_x new_y r hrun
  rw [if_neg hexists] at htgt
  rw [htgt]
  exact ⟨rfl, rfl, rfl, rfl, rfl, rfl, rfl, rfl, rfl, rfl, rfl, rfl, rfl, rfl,
    rfl, rfl, rfl, rfl, rfl, rfl, rfl, rfl, rfl, rfl⟩

/-- C10 witness: the sample move into the existing room (5,6): only the
south wall of the target changes (to Open), the job, boss and metadata
fields are untouched. -/
theorem move_into_existing_room_frame_witness :
    (move_player.handler 9 9 none sample_global sample_player_account
        sample_room sample_room_north 100 5 6 = .ok sample_move_result
      ∧ sample_room_north.season_seed ≠ 0)
    ∧ sample_move_result.target_room.walls
        = sample_room_north.walls.set 1 WALL_OPEN
    ∧ sample_move_result.target_room.progress = sample_room_north.progress
    ∧ sample_move_result.target_room.boss_defeated
        = sample_room_north.boss_defeated
    ∧ sample_move_result.target_room.created_slot
        = sample_room_north.created_slot := by
  have h := move_into_existing_room_frame 9 9 none sample_global
    sample_player_account sample_room sample_room_north 100 5 6
    sample_move_result (by decide) (by decide)
  exact ⟨⟨by decide, by decide⟩, h.1, h.2.2.2.2.2.1,
    h.2.2.2.2.2.2.2.2.2.2.2.2.2.2.2.2.2.2.2.1, h.2.2.2.2.2.2.2.2.2.2.2.2.2.2.2.2.2.2.2.2.2.2.2⟩


/-- C1 counterexample: with 99 completions recorded before the run, one
helper and an ample prize pool, the code distributes 500000 per helper
(because the handler increments the season counter to 100 before computing
the bonus), while the claim's formula with the pre-completion count c = 99
demands MIN_TIP / (1 + 99/100) / 1 = 1000000. -/
theorem complete_job_bonus_pre_increment_count_refuted :
    complete_job.handler 9 9 none sample_global_99 sample_room_one_helper
        sample_room_south sample_player_account 1000000000 100 1
      = .ok sample_complete_result_99
    ∧ sample_complete_result_99.bonus_total = 500000
    ∧ sample_complete_result_99.bonus_per_helper = 500000
    ∧ RoomAccount.MIN_BOOST_TIP / (1 + 99 / 100) / 1 = 1000000
    ∧ min (RoomAccount.MIN_BOOST_TIP / (1 + 99 / 100) / 1 * 1) 1000000000
        = 1000000
    ∧ (500000 : Nat) ≠ 1000000 := by
  decide

/-- C1 (amended): on every successful `complete_job` with helper count hc,
the desired bonus per helper is MIN_TIP / (1 + c1/100) / hc where c1 is the
season completion count AFTER this completion's increment (the handler
increments `jobs_completed` first); the total distributed is
min(desired * hc, prize pool balance), which is debited from the pool, and
the recorded bonus per helper is that total divided by hc with integer
division. -/
theorem complete_job_bonus_distribution
    (authority player : Pubkey) (session : Option SessionAuthority)
    (global : GlobalAccount) (room adjacent : RoomAccount)
    (pa : PlayerAccount) (pool now direction : Nat)
    (r : complete_job.CompleteResult)
    (hrun : complete_job.handler authority player session global room adjacent
      pa pool now direction = .ok r) :
    let hc := room.helper_counts.getD direction 0
    let desired_per_helper := RoomAccount.MIN_BOOST_TIP
      / (1 + wadd64 global.jobs_completed 1 / 100) / hc
    0 < hc
    ∧ r.global.jobs_completed = wadd64 global.jobs_completed 1
    ∧ r.bonus_total = min (desired_per_helper * hc) pool
    ∧ r.bonus_per_helper = r.bonus_total / hc
    ∧ r.room.bonus_per_helper
        = room.bonus_per_helper.set direction r.bonus_per_helper
    ∧ r.prize_pool_amount = pool - r.bonus_total := by
  intro hc desired_per_helper
  have h := complete_job_run_inversion authority player session global room
    adjacent pa pool now direction r hrun
  exact ⟨h.2.1, h.2.2.2.2.2.2.2.2.1, h.2.2.2.2.2.2.2.2.2.1,
    h.2.2.2.2.2.2.2.2.2.2.1, h.2.2.2.2.2.2.2.2.2.2.2.1,
    h.2.2.2.2.2.2.2.2.2.2.2.2⟩

/-- C1 witness: the spec example — no prior completions, two helpers,
MIN_TIP 1000000, prize pool 300000: desired 500000 per helper, exactly
300000 distributed (capped by the pool), 150000 recorded per helper. -/
theorem complete_job_bonus_distribution_witness :
    complete_job.handler 9 9 none sample_global sample_room sample_room_south
        sample_player_account 300000 100 1 = .ok sample_complete_result
    ∧ sample_complete_result.global.jobs_completed = 1
    ∧ sample_complete_result.bonus_total = 300000
    ∧ sample_complete_result.bonus_per_helper = 150000
    ∧ sample_complete_result.prize_pool_amount = 0
    ∧ RoomAccount.MIN_BOOST_TIP / (1 + 1 / 100) / 2 = 500000 := by
  have h := complete_job_bonus_distribution 9 9 none sample_global sample_room
    sample_room_south sample_player_account 300000 100 1
    sample_complete_result (by decide)
  exact ⟨by decide, h.2.1.trans (by decide), h.2.2.1.trans (by decide),
    by decide, by decide, by decide⟩

end ChainDepth
